import Mathlib

/-!
Shallow embedding of the provider-selection and dispatch/aggregation engine
of `su-network/lio-ai` (`src/ai/app/services/model_registry.py`,
`src/ai/app/services/code_generation.py`, `src/ai/app/models.py`,
`src/ai/app/providers/*.py`), together with proofs about the embedded
functions.  Python floats are embedded as `ℚ` (all arithmetic in the scored
formulas is exact on the inputs the code produces), Python `Optional` as
`Option`, raised exceptions as `Except.error`, and `dict`s as association
lists in insertion order.
-/

namespace LioAI

/-- Python truthiness of an `Optional[str]` value: `None` and `""` are falsy.
The orchestration code tests `response.error` / `not r.error` this way. -/
def pyTruthy : Option String → Bool
  | none => false
  | some s => s != ""

/-- The whitespace characters Python's `str.strip()` removes (ASCII range;
lines have already been split on the newline character). -/
def pyIsSpace (c : Char) : Bool :=
  c == ' ' || c == '\t' || c == '\n' || c == '\r' || c == '\x0B' || c == '\x0C'

/-- Python `str.strip()`: drop leading and trailing whitespace. -/
def pyStrip (s : String) : String :=
  (((s.toList.dropWhile pyIsSpace).reverse.dropWhile pyIsSpace).reverse).asString

/-- Python `str.lower()` (the source only lowercases ASCII keywords and code
text, where `Char.toLower` agrees with Python). -/
def pyLower (s : String) : String := s.map Char.toLower

/-- Non-overlapping occurrence count of `sub` in `l`, scanning left to right:
Python's `str.count` for a non-empty pattern. -/
def subCount (sub : List Char) : List Char → Nat
  | [] => 0
  | c :: t =>
    if sub.isPrefixOf (c :: t) then 1 + subCount sub (t.drop (sub.length - 1))
    else subCount sub t
termination_by l => l.length
decreasing_by
  · simp only [List.length_drop, List.length_cons]
    omega
  · simp only [List.length_cons]
    omega

/-- Python `sub in s` for a non-empty `sub`: some suffix of `s` starts with `sub`. -/
def pySubstr (s sub : String) : Bool :=
  go sub.toList s.toList
where
  go (sub : List Char) : List Char → Bool
    | [] => sub.isEmpty
    | c :: t => sub.isPrefixOf (c :: t) || go sub t

/-- Python `str.count(sub)` for a non-empty `sub`. -/
def pyCount (s sub : String) : Nat := subCount sub.toList s.toList

/-- Python `dict.get(key)` on an association list in insertion order. -/
def pyDictGet {α : Type} (d : List (String × α)) (k : String) : Option α :=
  (d.find? (fun p => p.1 == k)).map (fun p => p.2)

/-- Python `dict.get(key, default)`. -/
def pyDictGetD {α : Type} (d : List (String × α)) (k : String) (dflt : α) : α :=
  (pyDictGet d k).getD dflt

/-! ## Data model (`src/ai/app/models.py`) -/

/-- `ComplexityLevel` enum. -/
inductive ComplexityLevel where
  | simple
  | intermediate
  | advanced
deriving DecidableEq, Repr

/-- `QualityMetrics` (`models.py`); scores embedded as `ℚ`, defaults as in the
pydantic fields. -/
structure QualityMetrics where
  cyclomatic_complexity : Nat := 0
  lines_of_code : Nat := 0
  readability_score : ℚ := 0
  security_score : ℚ := 0
  test_coverage : Option ℚ := none
  documentation_score : ℚ := 0
deriving DecidableEq, Repr

/-- `ModelResponse` (`models.py`): the per-backend outcome. -/
structure ModelResponse where
  model_id : String
  model_name : String
  provider : String
  generated_code : String
  confidence_score : ℚ
  execution_time_ms : ℚ
  tokens_used : Nat := 0
  prompt_tokens : Nat := 0
  completion_tokens : Nat := 0
  quality_metrics : QualityMetrics := {}
  syntax_valid : Bool := false
  warnings : List String := []
  error : Option String := none
deriving DecidableEq, Repr

/-- `CodeGenRequest` (`models.py`), restricted to the fields the engine reads. -/
structure CodeGenRequest where
  request_id : String
  language : String
  framework : Option String := none
  complexity : ComplexityLevel
  prompt : String
  context : Option String := none
  constraints : List String := []
  selected_models : List String
  max_models : Option Nat := none
  timeout : Nat := 30
  include_tests : Bool := false
  include_docs : Bool := true
deriving DecidableEq, Repr

/-- The `metadata` dict attached to a `CodeGenResponse`: either the run
metadata built on the success path of `generate_code`, or the
`{"error": message}` dict of `_create_error_response`. -/
inductive ResponseMetadata where
  | run (language : String) (complexity : ComplexityLevel)
      (models_attempted : Nat) (models_succeeded : Nat)
  | failure (msg : String)
deriving DecidableEq, Repr

/-- `CodeGenResponse` (`models.py`): the aggregated outcome. -/
structure CodeGenResponse where
  request_id : String
  status : String
  total_time_ms : ℚ
  model_responses : List ModelResponse
  consensus_code : Option String := none
  best_model : Option String := none
  metadata : ResponseMetadata
deriving DecidableEq, Repr

/-- `ModelCapability` (`models.py`). -/
structure ModelCapability where
  languages : List String := []
  frameworks : List String := []
  max_complexity : ComplexityLevel := .advanced
  special_features : List String := []
  context_window : Nat := 4096
  output_limit : Nat := 4096
deriving DecidableEq, Repr

/-- `ModelMetrics` (`models.py`); floats as `ℚ`. -/
structure ModelMetrics where
  average_latency_ms : ℚ := 0
  success_rate : ℚ := 1
  cost_per_request : ℚ := 0
  requests_per_minute : Nat := 60
  uptime : ℚ := 1
deriving DecidableEq, Repr

/-- `ModelConfig` (`models.py`); `provider` is the enum's string value and
`priority` (an int in 1..10 in the source) is carried as `ℚ` because the
scoring formula divides it. -/
structure ModelConfig where
  id : String
  name : String
  provider : String
  model_name : String
  enabled : Bool := true
  priority : ℚ := 1
  capabilities : ModelCapability := {}
  metrics : ModelMetrics := {}
deriving DecidableEq, Repr

/-- A live provider handle.  `LiteLLMProvider.__init__`
(`litellm_provider.py` lines 18-36), `OllamaProvider.__init__`
(`ollama_provider.py` lines 16-32) and `GeminiProvider.__init__`
(`gemini_provider.py`) store the model id, the backend model name and a
config dict on the instance; none of the three classes ever assigns an
`enabled` attribute. -/
structure ProviderHandle where
  model_id : String
  model_name : String
deriving DecidableEq, Repr

/-- Reading the `enabled` attribute of a provider instance: no provider class
defines it, so the attribute access raises `AttributeError` for every
instance. -/
def ProviderHandle.attrEnabled (_p : ProviderHandle) : Except String Bool :=
  .error "AttributeError: provider object has no attribute enabled"

/-- The in-memory state of `ModelRegistry` (`model_registry.py`): the
`models` dict values in insertion order, the `providers` dict, and the
`selection_strategies` table flattened to each strategy's `factors` dict. -/
structure Registry where
  models : List ModelConfig
  providers : List (String × ProviderHandle)
  strategies : List (String × List (String × ℚ))

/-- `ModelRegistry.get_provider` (`model_registry.py` lines 248-250). -/
def Registry.getProvider (reg : Registry) (model_id : String) : Option ProviderHandle :=
  pyDictGet reg.providers model_id

/-- Python `model_id in self.providers` (dict containment). -/
def Registry.hasProvider (reg : Registry) (model_id : String) : Bool :=
  (reg.getProvider model_id).isSome

/-- `ModelRegistry.get_model` (`model_registry.py` lines 244-246). -/
def Registry.getModel (reg : Registry) (model_id : String) : Option ModelConfig :=
  reg.models.find? (fun m => m.id == model_id)

/-- The `complexity_order` mapping used in `list_models` and
`_calculate_model_score`. -/
def complexityOrder : ComplexityLevel → Nat
  | .simple => 0
  | .intermediate => 1
  | .advanced => 2

/-- `ModelRegistry.list_models` (`model_registry.py` lines 252-280) at the
call site of `select_models`: `enabled_only` is `True`, `language` is the
request's string (Python skips the language filter when it is falsy, i.e.
empty), and `complexity` is always given (an enum member is truthy). -/
def list_models (reg : Registry) (language : String) (complexity : ComplexityLevel) :
    List ModelConfig :=
  let ms := reg.models.filter (fun m => m.enabled && reg.hasProvider m.id)
  let ms := if language == "" then ms else
    ms.filter (fun m => m.capabilities.languages.contains language)
  ms.filter (fun m => decide (complexityOrder complexity ≤ complexityOrder m.capabilities.max_complexity))

/-- Strategy lookup of `select_models`:
`self.selection_strategies.get(strategy, self.selection_strategies.get("default", {}))`
followed by `.get("factors", {})` (the registry carries each strategy's
factors directly). -/
def getFactors (reg : Registry) (strategy : String) : List (String × ℚ) :=
  match pyDictGet reg.strategies strategy with
  | some f => f
  | none => (pyDictGet reg.strategies "default").getD []

/-- `ModelRegistry._calculate_model_score` (`model_registry.py` lines 319-361). -/
def calculate_model_score (model : ModelConfig) (language : String)
    (framework : Option String) (complexity : ComplexityLevel)
    (factors : List (String × ℚ)) : ℚ :=
  let score : ℚ := 0
  let score := if model.capabilities.languages.contains language then
    score + pyDictGetD factors "language_match" 0.3 else score
  let score := match framework with
    | some fw =>
      if fw != "" && model.capabilities.frameworks.contains fw then
        score + pyDictGetD factors "framework_match" 0.2
      else score
    | none => score
  let score := if complexityOrder complexity ≤ complexityOrder model.capabilities.max_complexity then
    score + pyDictGetD factors "complexity_match" 0.2 else score
  let cost_score : ℚ := 1 - min (model.metrics.cost_per_request / 0.10) 1
  let score := score + cost_score * pyDictGetD factors "cost_efficiency" 0.15
  let speed_score : ℚ := 1 - min (model.metrics.average_latency_ms / 5000) 1
  let score := score + speed_score * pyDictGetD factors "speed" 0.10
  let score := score + model.metrics.success_rate * pyDictGetD factors "success_rate" 0.05
  score + (model.priority / 10) * 0.1

/-- One step of the stable descending insertion sort: place `x` before the
first element whose score is not above `x`'s.  A stable sort is determined
by its comparison, so this represents Python's stable
`scored_models.sort(key=lambda x: x[1], reverse=True)`. -/
def insertByScoreDesc (x : String × ℚ) : List (String × ℚ) → List (String × ℚ)
  | [] => [x]
  | y :: ys => if y.2 ≤ x.2 then x :: y :: ys else y :: insertByScoreDesc x ys

/-- Stable descending sort by score (`model_registry.py` line 314). -/
def sortByScoreDesc (l : List (String × ℚ)) : List (String × ℚ) :=
  l.foldr insertByScoreDesc []

/-- The `(model.id, score)` pairs `select_models` builds over the eligible
models, in catalog insertion order (`model_registry.py` lines 306-311). -/
def scoredCandidates (reg : Registry) (language : String)
    (complexity : ComplexityLevel) (framework : Option String)
    (strategy : String) : List (String × ℚ) :=
  (list_models reg language complexity).map
    (fun m => (m.id, calculate_model_score m language framework complexity (getFactors reg strategy)))

/-- `ModelRegistry.select_models` (`model_registry.py` lines 282-317). -/
def select_models (reg : Registry) (language : String)
    (complexity : ComplexityLevel) (framework : Option String)
    (max_models : Nat) (strategy : String) : List String :=
  let eligible := list_models reg language complexity
  if eligible.isEmpty then []
  else
    ((sortByScoreDesc (scoredCandidates reg language complexity framework strategy)).take
      max_models).map Prod.fst

/-! ## Orchestration (`src/ai/app/services/code_generation.py`) -/

/-- Membership of a response in `successful_responses`
(`code_generation.py` line 59: `not r.error` under Python truthiness). -/
def isSuccess (r : ModelResponse) : Bool := ! pyTruthy r.error

/-- The status derivation of `generate_code` (`code_generation.py`
lines 58-65). -/
def deriveStatus (model_responses : List ModelResponse) : String :=
  let successful := model_responses.filter isSuccess
  if successful.isEmpty then "failed"
  else if successful.length < model_responses.length then "partial"
  else "success"

/-- Python `max(xs, key=f)` on the non-empty list `x :: xs`: keep the current
maximum and replace it only on a strictly greater key, so the first maximal
element wins. -/
def pyMaxBy {α : Type} (f : α → ℚ) (x : α) (xs : List α) : α :=
  xs.foldl (fun a b => if f a < f b then b else a) x

/-- `CodeGenerationService._generate_consensus` (`code_generation.py`
lines 264-279), on the non-empty list `r :: rs` of successful responses:
restrict to the responses with `syntax_valid` when any exist, then take the
highest-confidence one.  The `[]` branch of the match is unreachable (the
chosen list is never empty). -/
def generate_consensus (r : ModelResponse) (rs : List ModelResponse) :
    String × String :=
  let valid := (r :: rs).filter (fun x => x.syntax_valid)
  let chosen := if valid.isEmpty then r :: rs else valid
  match chosen with
  | [] => (r.generated_code, r.model_id)
  | c :: cs =>
    let best := pyMaxBy (fun x => x.confidence_score) c cs
    (best.generated_code, best.model_id)

/-- The consensus/best-model assembly of `generate_code` (`code_generation.py`
lines 67-73): `(consensus_code, best_model)`.  With more than one successful
response `_generate_consensus` runs; with exactly one only `best_model` is
set and `consensus_code` stays `None`. -/
def consensusStep (model_responses : List ModelResponse) :
    Option String × Option String :=
  match model_responses.filter isSuccess with
  | [] => (none, none)
  | [r] => (none, some r.model_id)
  | r :: r' :: rest =>
    let p := generate_consensus r (r' :: rest)
    (some p.1, some p.2)

/-- The explicit-selection loop of `_prepare_model_selection`
(`code_generation.py` lines 101-110): for each id, look up the provider; a
missing provider is skipped with a warning, while a present one has its
`enabled` attribute read — which raises (see `ProviderHandle.attrEnabled`),
aborting the loop with the exception. -/
def validate_selected (getProvider : String → Option ProviderHandle) :
    List String → Except String (List String)
  | [] => .ok []
  | model_id :: rest =>
    match getProvider model_id with
    | some p =>
      match p.attrEnabled with
      | .error e => .error e
      | .ok en =>
        match validate_selected getProvider rest with
        | .error e => .error e
        | .ok tl => .ok (if en then model_id :: tl else tl)
    | none => validate_selected getProvider rest

/-- `CodeGenerationService._prepare_model_selection` (`code_generation.py`
lines 98-119).  `request.max_models or 3` is `Option.getD 3` (pydantic rules
out `max_models = 0`). -/
def prepare_model_selection (reg : Registry) (request : CodeGenRequest) :
    Except String (List String) :=
  if !request.selected_models.isEmpty && request.selected_models.head? != some "auto" then
    validate_selected reg.getProvider request.selected_models
  else
    .ok (select_models reg request.language request.complexity request.framework
      (request.max_models.getD 3) "default")

/-- `CodeGenerationService._execute_parallel` (`code_generation.py`
lines 121-155).  One unit of work is launched per shortlisted id that has a
provider (an id without one appends no task at all, lines 130-134); `unit`
is the unit's result — `Except.error` stands for a unit that ended in a
raised exception, which `asyncio.gather(..., return_exceptions=True)` turns
into a value that the loop at lines 144-149 filters out.  `timedOut` models
`asyncio.wait_for` raising `TimeoutError`: the whole result set is
discarded and the empty list returned (lines 153-155). -/
def execute_parallel (getProvider : String → Option ProviderHandle)
    (model_ids : List String)
    (unit : String → ProviderHandle → Except String ModelResponse)
    (timedOut : Bool) : List ModelResponse :=
  let tasks := model_ids.filterMap (fun i => (getProvider i).map (fun p => (i, p)))
  if timedOut then []
  else
    (tasks.map (fun t => unit t.1 t.2)).filterMap
      (fun r => match r with | .ok m => some m | .error _ => none)

/-- The bounded retry of the `@retry(stop=stop_after_attempt(3), ...,
reraise=True)` decorator in `_execute_with_fallback` (`code_generation.py`
lines 166-172), modelled from tenacity's documented semantics: run
`attempt k` for `k = first, first+1, ...` with `budget` attempts left;
a success returns immediately, and when the budget is exhausted the last
attempt's exception is re-raised. -/
def retry_stop (attempt : Nat → Except String ModelResponse) :
    Nat → Nat → Except String ModelResponse
  | k, 0 => attempt k
  | k, 1 => attempt k
  | k, n + 2 =>
    match attempt k with
    | .ok r => .ok r
    | .error _ => retry_stop attempt (k + 1) (n + 1)

/-- `_execute()` under `stop_after_attempt(3)`: at most three attempts,
numbered 0, 1, 2. -/
def retry_call (attempt : Nat → Except String ModelResponse) :
    Except String ModelResponse :=
  retry_stop attempt 0 3

/-- tenacity's `wait_exponential(multiplier, min, max)` delay after the
`attempt_number`-th attempt (1-based): `multiplier * 2 ^ attempt_number`
clamped into `[min, max]`. -/
def wait_exponential (multiplier mn mx : ℚ) (attempt_number : Nat) : ℚ :=
  max (max 0 mn) (min (multiplier * 2 ^ attempt_number) mx)

/-- The configured backoff schedule `wait_exponential(multiplier=1, min=2,
max=10)` of `_execute_with_fallback`. -/
def backoff_delay (attempt_number : Nat) : ℚ :=
  wait_exponential 1 2 10 attempt_number

/-- `CodeGenerationService._calculate_quality_metrics` (`code_generation.py`
lines 230-262), translated line by line; the `language` parameter of the
source is unused by the computation. -/
def calculate_quality_metrics (code : String) : QualityMetrics :=
  let lines := code.splitOn "\n"
  let lines_of_code :=
    (lines.filter (fun l => !(pyStrip l == "") && !((pyStrip l).startsWith "#"))).length
  let complexity_keywords := ["if", "else", "elif", "for", "while", "match", "case", "switch"]
  let cyclomatic_complexity :=
    1 + (complexity_keywords.map (fun k => pyCount (pyLower code) k)).sum
  let avg_line_length : ℚ :=
    ((lines.map (fun l => (l.length : ℚ))).sum) / (max lines.length 1 : Nat)
  let readability_score : ℚ := max 0 (100 - (|avg_line_length - 80| / 2))
  let comment_lines :=
    (lines.filter (fun l => (pyStrip l).startsWith "#" || pySubstr l "\"\"\"")).length
  let doc_score : ℚ := min 100 (((comment_lines : ℚ) / (max lines_of_code 1 : Nat)) * 200)
  { cyclomatic_complexity := cyclomatic_complexity,
    lines_of_code := lines_of_code,
    readability_score := readability_score,
    security_score := 75,
    documentation_score := doc_score }

/-- `CodeGenerationService._execute_with_fallback` (`code_generation.py`
lines 157-208).  `attempt` is what `await provider.generate_code(request,
prompt)` does on each try (`Except.error` = raised exception); `validate` is
the `_validate_syntax` oracle for the request's language.  On a response
with no error and non-empty code, syntax validity and quality metrics are
filled in; after the retries are exhausted the exception becomes an error
outcome built from the registry's `ModelConfig` (lines 192-208). -/
def execute_with_fallback (model_config : Option ModelConfig) (model_id : String)
    (validate : String → Bool)
    (attempt : Nat → Except String ModelResponse) : ModelResponse :=
  match retry_call attempt with
  | .ok response =>
    if !pyTruthy response.error && response.generated_code != "" then
      { response with
        syntax_valid := validate response.generated_code,
        quality_metrics := calculate_quality_metrics response.generated_code }
    else response
  | .error e =>
    { model_id := model_id,
      model_name := match model_config with | some m => m.name | none => model_id,
      provider := match model_config with | some m => m.provider | none => "unknown",
      generated_code := "",
      confidence_score := 0,
      execution_time_ms := 0,
      tokens_used := 0,
      prompt_tokens := 0,
      completion_tokens := 0,
      quality_metrics := {},
      syntax_valid := false,
      warnings := [],
      error := some e }

/-- `CodeGenerationService._create_error_response` (`code_generation.py`
lines 281-294). -/
def create_error_response (request : CodeGenRequest) (error_message : String)
    (elapsed_time : ℚ) : CodeGenResponse :=
  { request_id := request.request_id,
    status := "failed",
    total_time_ms := elapsed_time * 1000,
    model_responses := [],
    consensus_code := none,
    best_model := none,
    metadata := .failure error_message }

/-- `CodeGenerationService.generate_code` (`code_generation.py` lines 21-96).
`unit` is the per-backend unit of work (`_execute_with_fallback` applied to
that backend's attempt sequence), `timedOut` whether the shared
`request.timeout` deadline elapsed first, `elapsed` the measured wall-clock
time.  An exception escaping `_prepare_model_selection` is caught by the
outer handler and becomes an error response. -/
def generate_code (reg : Registry) (request : CodeGenRequest)
    (unit : String → ProviderHandle → Except String ModelResponse)
    (timedOut : Bool) (elapsed : ℚ) : CodeGenResponse :=
  match prepare_model_selection reg request with
  | .error e => create_error_response request e elapsed
  | .ok model_ids =>
    if model_ids.isEmpty then
      create_error_response request "No suitable models available for this request" elapsed
    else
      let model_responses := execute_parallel reg.getProvider model_ids unit timedOut
      let successful := model_responses.filter isSuccess
      let cb := consensusStep model_responses
      { request_id := request.request_id,
        status := deriveStatus model_responses,
        total_time_ms := elapsed * 1000,
        model_responses := model_responses,
        consensus_code := cb.1,
        best_model := cb.2,
        metadata := .run request.language request.complexity model_ids.length successful.length }

/-! ## Helper lemmas -/

theorem mem_insertByScoreDesc {y x : String × ℚ} :
    ∀ {l : List (String × ℚ)}, y ∈ insertByScoreDesc x l ↔ y = x ∨ y ∈ l := by
  intro l
  induction l with
  | nil => simp [insertByScoreDesc]
  | cons z zs ih =>
    simp only [insertByScoreDesc]
    split
    · simp [List.mem_cons]
    · simp only [List.mem_cons, ih]
      tauto

theorem pairwise_insertByScoreDesc {x : String × ℚ} {l : List (String × ℚ)}
    (h : l.Pairwise (fun a b => b.2 ≤ a.2)) :
    (insertByScoreDesc x l).Pairwise (fun a b => b.2 ≤ a.2) := by
  induction l with
  | nil => simp [insertByScoreDesc]
  | cons z zs ih =>
    rw [List.pairwise_cons] at h
    obtain ⟨hz, hzs⟩ := h
    simp only [insertByScoreDesc]
    split
    · rename_i hle
      refine List.Pairwise.cons ?_ (List.Pairwise.cons hz hzs)
      intro b hb
      rcases List.mem_cons.mp hb with rfl | hb
      · exact hle
      · exact le_trans (hz b hb) hle
    · rename_i hlt
      refine List.Pairwise.cons ?_ (ih hzs)
      intro b hb
      rcases mem_insertByScoreDesc.mp hb with rfl | hb
      · exact le_of_lt (lt_of_not_le hlt)
      · exact hz b hb

theorem pairwise_sortByScoreDesc (l : List (String × ℚ)) :
    (sortByScoreDesc l).Pairwise (fun a b => b.2 ≤ a.2) := by
  induction l with
  | nil => simp [sortByScoreDesc]
  | cons x xs ih => exact pairwise_insertByScoreDesc ih

theorem mem_sortByScoreDesc {y : String × ℚ} :
    ∀ {l : List (String × ℚ)}, y ∈ sortByScoreDesc l ↔ y ∈ l := by
  intro l
  induction l with
  | nil => simp [sortByScoreDesc]
  | cons x xs ih =>
    show y ∈ insertByScoreDesc x (sortByScoreDesc xs) ↔ _
    rw [mem_insertByScoreDesc]
    simp [ih]

theorem filter_insertByScoreDesc (q : ℚ) (x : String × ℚ) (l : List (String × ℚ)) :
    (insertByScoreDesc x l).filter (fun p => decide (p.2 = q)) =
      if x.2 = q then x :: l.filter (fun p => decide (p.2 = q))
      else l.filter (fun p => decide (p.2 = q)) := by
  induction l with
  | nil => by_cases hx : x.2 = q <;> simp [insertByScoreDesc, List.filter_cons, hx]
  | cons z zs ih =>
    simp only [insertByScoreDesc]
    split
    · rename_i hle
      by_cases hx : x.2 = q <;> simp [List.filter_cons, hx]
    · rename_i hlt
      have hzx : z.2 > x.2 := lt_of_not_le hlt
      by_cases hx : x.2 = q
      · have hz : ¬ z.2 = q := by
          intro hzq
          rw [hx] at hzx
          rw [hzq] at hzx
          exact lt_irrefl q hzx
        simp [List.filter_cons, hx, hz, ih]
      · by_cases hz : z.2 = q <;> simp [List.filter_cons, hx, hz, ih]

theorem filter_sortByScoreDesc (q : ℚ) (l : List (String × ℚ)) :
    (sortByScoreDesc l).filter (fun p => decide (p.2 = q)) =
      l.filter (fun p => decide (p.2 = q)) := by
  induction l with
  | nil => rfl
  | cons x xs ih =>
    show (insertByScoreDesc x (sortByScoreDesc xs)).filter _ = _
    rw [filter_insertByScoreDesc]
    by_cases hx : x.2 = q <;> simp [List.filter_cons, hx, ih]

theorem pyMaxBy_split {α : Type} (f : α → ℚ) :
    ∀ (xs : List α) (x : α), ∃ l1 l2, x :: xs = l1 ++ pyMaxBy f x xs :: l2 ∧
      (∀ y ∈ l1, f y < f (pyMaxBy f x xs)) ∧
      (∀ y ∈ l2, f y ≤ f (pyMaxBy f x xs)) := by
  intro xs
  induction xs with
  | nil =>
    intro x
    exact ⟨[], [], by simp [pyMaxBy], by simp, by simp⟩
  | cons y ys ih =>
    intro x
    by_cases hxy : f x < f y
    · have hstep : pyMaxBy f x (y :: ys) = pyMaxBy f y ys := by
        simp [pyMaxBy, hxy]
      obtain ⟨l1, l2, heq, h1, h2⟩ := ih y
      have hy_le : f y ≤ f (pyMaxBy f y ys) := by
        cases l1 with
        | nil =>
          have hym : y = pyMaxBy f y ys := by
            simpa using congrArg (fun l => l.head?) heq
          exact le_of_eq (congrArg f hym)
        | cons a l1' =>
          have hya : y = a := by simpa using congrArg (fun l => l.head?) heq
          exact (congrArg f hya).le.trans (le_of_lt (h1 a (by simp)))
      refine ⟨x :: l1, l2, ?_, ?_, by rw [hstep]; exact h2⟩
      · rw [hstep]
        simpa using congrArg (List.cons x) heq
      · rw [hstep]
        intro z hz
        rcases List.mem_cons.mp hz with rfl | hz
        · exact lt_of_lt_of_le hxy hy_le
        · exact h1 z hz
    · have hstep : pyMaxBy f x (y :: ys) = pyMaxBy f x ys := by
        simp [pyMaxBy, hxy]
      have hy_le : f y ≤ f x := le_of_not_lt hxy
      obtain ⟨l1, l2, heq, h1, h2⟩ := ih x
      cases l1 with
      | nil =>
        have hxm : x = pyMaxBy f x ys := by
          simpa using congrArg (fun l => l.head?) heq
        have hys : ys = l2 := by simpa using congrArg List.tail heq
        refine ⟨[], y :: l2, ?_, by simp, ?_⟩
        · rw [hstep, ← hxm, hys]
          simp
        · rw [hstep]
          intro z hz
          rcases List.mem_cons.mp hz with rfl | hz
          · exact hy_le.trans (hxm ▸ le_refl (f x))
          · exact h2 z hz
      | cons a l1' =>
        have hxa : x = a := by simpa using congrArg (fun l => l.head?) heq
        have hys : ys = l1' ++ pyMaxBy f x ys :: l2 := by
          simpa using congrArg List.tail heq
        have hx_lt : f x < f (pyMaxBy f x ys) := hxa ▸ h1 a (by simp)
        refine ⟨x :: y :: l1', l2, ?_, ?_, by rw [hstep]; exact h2⟩
        · rw [hstep]
          conv_lhs => rw [hys]
          simp
        · rw [hstep]
          intro z hz
          rcases List.mem_cons.mp hz with rfl | hz
          · exact hx_lt
          rcases List.mem_cons.mp hz with rfl | hz
          · exact lt_of_le_of_lt hy_le hx_lt
          · exact h1 z (by simp [hz])

theorem retry_call_cases (a : Nat → Except String ModelResponse) :
    retry_call a = a 0 ∨ retry_call a = a 1 ∨ retry_call a = a 2 := by
  cases h0 : a 0 with
  | error e0 =>
    cases h1 : a 1 with
    | error e1 => exact Or.inr (Or.inr (by simp [retry_call, retry_stop, h0, h1]))
    | ok r1 => exact Or.inr (Or.inl (by simp [retry_call, retry_stop, h0, h1]))
  | ok r0 => exact Or.inl (by simp [retry_call, retry_stop, h0])

theorem execute_parallel_ok_units (gp : String → Option ProviderHandle)
    (u : String → ProviderHandle → ModelResponse) :
    ∀ ids, execute_parallel gp ids (fun i p => .ok (u i p)) false =
      ids.filterMap (fun i => (gp i).map (u i)) := by
  intro ids
  induction ids with
  | nil => rfl
  | cons i is ih =>
    cases hgi : gp i with
    | none => simpa [execute_parallel, List.filterMap_cons, hgi] using ih
    | some p => simpa [execute_parallel, List.filterMap_cons, hgi] using ih

theorem execute_parallel_length_le (gp : String → Option ProviderHandle)
    (unit : String → ProviderHandle → Except String ModelResponse)
    (ids : List String) :
    (execute_parallel gp ids unit false).length ≤ ids.length := by
  simp only [execute_parallel, Bool.false_eq_true, if_false]
  refine (List.length_filterMap_le _ _).trans ?_
  rw [List.length_map]
  exact List.length_filterMap_le _ _

/-! ## Concrete fixtures used by witnesses and counterexamples -/

/-- A live handle for the fixture backend `m1`. -/
def handleW : ProviderHandle := { model_id := "m1", model_name := "m1:latest" }

/-- A fixture backend supporting python at every tier, enabled and
credentialed. -/
def modelW : ModelConfig :=
  { id := "m1", name := "Model One", provider := "ollama", model_name := "m1:latest",
    enabled := true, priority := 1,
    capabilities := { languages := ["python"], frameworks := [], max_complexity := .advanced },
    metrics := {} }

/-- A fixture registry with the one backend `m1` and no strategy table. -/
def regW : Registry :=
  { models := [modelW], providers := [("m1", handleW)], strategies := [] }

/-- A fixture request on the auto-selection path. -/
def requestAutoW : CodeGenRequest :=
  { request_id := "r1", language := "python", complexity := .simple,
    prompt := "write a function", selected_models := ["auto"], max_models := some 2 }

/-- A fixture request that names `m1` explicitly (no "auto" sentinel). -/
def requestExplicitW : CodeGenRequest :=
  { request_id := "r2", language := "python", complexity := .simple,
    prompt := "write a function", selected_models := ["m1"] }

/-- Fixture outcome A: successful, valid syntax, confidence 0.9 (the spec's
concrete consensus scenario). -/
def okRespA : ModelResponse :=
  { model_id := "A", model_name := "A", provider := "ollama",
    generated_code := "print(1)", confidence_score := 9/10,
    execution_time_ms := 0, syntax_valid := true, error := none }

/-- Fixture outcome B: successful, invalid syntax, confidence 0.95. -/
def okRespB : ModelResponse :=
  { model_id := "B", model_name := "B", provider := "ollama",
    generated_code := "print(2)", confidence_score := 19/20,
    execution_time_ms := 0, syntax_valid := false, error := none }

/-- Fixture outcome with an error set. -/
def errRespW : ModelResponse :=
  { model_id := "E", model_name := "E", provider := "ollama",
    generated_code := "", confidence_score := 0,
    execution_time_ms := 0, syntax_valid := false, error := some "boom" }

/-- Fixture outcome a handle could legally return: no error, empty content. -/
def emptyOkResp : ModelResponse :=
  { model_id := "Z", model_name := "Z", provider := "ollama",
    generated_code := "", confidence_score := 1/2,
    execution_time_ms := 0, syntax_valid := false, error := none }

/-- The response a fixture backend produces on its successful attempt. -/
def goodResp : ModelResponse :=
  { model_id := "G", model_name := "G", provider := "ollama",
    generated_code := "print(3)", confidence_score := 3/4,
    execution_time_ms := 0, syntax_valid := false, error := none }

/-- A fixture attempt sequence: two transient failures, then success. -/
def attemptW : Nat → Except String ModelResponse
  | 0 => .error "transient 0"
  | 1 => .error "transient 1"
  | _ => .ok goodResp

/-! ## Claim theorems -/

/-- C1: when the shared deadline elapses before all units finish, the
dispatch call returns an empty outcome list (no partial outcomes), the
aggregated outcome has status "failed", and this is the same status the
derivation gives when every backend produced an error outcome. -/
theorem deadline_discards_outcomes
    (gp : String → Option ProviderHandle) (ids : List String)
    (unit : String → ProviderHandle → Except String ModelResponse)
    (reg : Registry) (request : CodeGenRequest) (elapsed : ℚ)
    (model_ids : List String)
    (hprep : prepare_model_selection reg request = .ok model_ids)
    (hne : model_ids ≠ []) :
    execute_parallel gp ids unit true = []
    ∧ (generate_code reg request unit true elapsed).model_responses = []
    ∧ (generate_code reg request unit true elapsed).status = "failed"
    ∧ ∀ rs : List ModelResponse,
        rs.all (fun r => pyTruthy r.error) = true → deriveStatus rs = "failed" := by
  have hempty : model_ids.isEmpty = false := by
    cases model_ids with
    | nil => exact absurd rfl hne
    | cons a l => rfl
  refine ⟨by simp [execute_parallel], ?_, ?_, ?_⟩
  · simp [generate_code, hprep, hempty, execute_parallel]
  · simp [generate_code, hprep, hempty, execute_parallel, deriveStatus]
  · intro rs hall
    have hfil : rs.filter isSuccess = [] := by
      rw [List.filter_eq_nil_iff]
      intro r hr
      have := List.all_eq_true.mp hall r hr
      simp [isSuccess, this]
    simp [deriveStatus, hfil]

/-- C1 witness: the theorem applied to the fixture registry on the
auto-selection path, and to a one-element list of failed outcomes. -/
theorem deadline_discards_outcomes_applied :
    (generate_code regW requestAutoW (fun _ _ => Except.ok goodResp) true 0).status = "failed"
    ∧ deriveStatus [errRespW] = "failed" :=
  ⟨(deadline_discards_outcomes regW.getProvider [] (fun _ _ => Except.ok goodResp)
      regW requestAutoW 0 ["m1"] rfl (by decide)).2.2.1,
   (deadline_discards_outcomes regW.getProvider [] (fun _ _ => Except.ok goodResp)
      regW requestAutoW 0 ["m1"] rfl (by decide)).2.2.2 [errRespW] rfl⟩

/-- C2 counterexample: on the empty outcome list (reachable, e.g. after a
deadline expiry) every outcome vacuously has no error, yet the derived
status is "failed", not "success". -/
theorem status_empty_success_cex :
    deriveStatus [] = "failed"
    ∧ ([] : List ModelResponse).all isSuccess = true
    ∧ "failed" ≠ "success" :=
  ⟨rfl, rfl, by decide⟩

/-- C2 amended: the status is "failed" exactly when no outcome counts as
successful, "partial" exactly when a strict non-empty subset does, and
"success" exactly when the list is non-empty and every outcome counts as
successful. -/
theorem status_characterization (rs : List ModelResponse) :
    (deriveStatus rs = "failed" ↔ (rs.filter isSuccess).length = 0)
    ∧ (deriveStatus rs = "partial" ↔
        0 < (rs.filter isSuccess).length ∧ (rs.filter isSuccess).length < rs.length)
    ∧ (deriveStatus rs = "success" ↔
        rs ≠ [] ∧ (rs.filter isSuccess).length = rs.length) := by
  unfold deriveStatus
  have hle : (rs.filter isSuccess).length ≤ rs.length := List.length_filter_le _ _
  by_cases h0 : (rs.filter isSuccess).isEmpty = true
  · have h0' : (rs.filter isSuccess).length = 0 := by
      rw [List.isEmpty_iff] at h0
      simp [h0]
    rw [if_pos h0]
    refine ⟨⟨fun _ => h0', fun _ => rfl⟩, ?_, ?_⟩
    · exact ⟨fun h => absurd h (by decide), fun ⟨hpos, _⟩ => absurd h0' (by omega)⟩
    · refine ⟨fun h => absurd h (by decide), fun ⟨hne, hlen⟩ => ?_⟩
      exact absurd (List.length_eq_zero.mp (by omega)) hne
  · have hpos : 0 < (rs.filter isSuccess).length := by
      cases hfe : rs.filter isSuccess with
      | nil => rw [hfe] at h0; exact absurd rfl h0
      | cons a l => simp [hfe]
    rw [if_neg h0]
    by_cases h1 : (rs.filter isSuccess).length < rs.length
    · rw [if_pos h1]
      refine ⟨⟨fun h => absurd h (by decide), fun h => absurd h (by omega)⟩,
        ⟨fun _ => ⟨hpos, h1⟩, fun _ => rfl⟩,
        ⟨fun h => absurd h (by decide), fun ⟨_, hlen⟩ => absurd hlen (by omega)⟩⟩
    · rw [if_neg h1]
      have heq : (rs.filter isSuccess).length = rs.length := by omega
      have hne : rs ≠ [] := by
        intro hnil
        rw [hnil] at hpos
        simp at hpos
      exact ⟨⟨fun h => absurd h (by decide), fun h => absurd h (by omega)⟩,
        ⟨fun h => absurd h (by decide), fun ⟨_, hlt⟩ => absurd hlt (by omega)⟩,
        ⟨fun _ => ⟨hne, heq⟩, fun _ => rfl⟩⟩

/-- C3 counterexample: a shortlist of one backend whose live handle is
missing yields an empty outcome list (no immediate failure outcome), so the
result does not contain one outcome per attempted backend. -/
theorem dispatch_missing_handle_cex :
    execute_parallel (fun _ => none) ["mA"] (fun _ _ => Except.error "e") false = []
    ∧ ([] : List ModelResponse).length ≠ ["mA"].length :=
  ⟨rfl, by decide⟩

/-- C3 amended: with the deadline not exceeded and every unit returning
normally (the orchestration converts failures to data), the dispatch result
is exactly one outcome per shortlisted backend id that has a live handle, in
shortlist order; ids without a handle are silently omitted, and the result
never exceeds the shortlist in length. -/
theorem dispatch_one_outcome_per_handled
    (gp : String → Option ProviderHandle) (ids : List String)
    (u : String → ProviderHandle → ModelResponse)
    (unit : String → ProviderHandle → Except String ModelResponse) :
    execute_parallel gp ids (fun i p => .ok (u i p)) false =
      ids.filterMap (fun i => (gp i).map (u i))
    ∧ (execute_parallel gp ids unit false).length ≤ ids.length :=
  ⟨execute_parallel_ok_units gp u ids, execute_parallel_length_le gp unit ids⟩

/-- C4 counterexample: with exactly one successful outcome the aggregation
names its backend as best but leaves the consensus content `none`, not the
outcome's content. -/
theorem single_success_consensus_null_cex :
    consensusStep [okRespA] = (none, some "A")
    ∧ okRespA.generated_code = "print(1)"
    ∧ (consensusStep [okRespA]).1 ≠ some okRespA.generated_code :=
  ⟨rfl, rfl, by decide⟩

/-- C4 amended: with exactly one successful outcome, the reduction names
that outcome's backend as best and leaves the consensus content null
(content is only produced when at least two outcomes succeed). -/
theorem single_success_best_without_consensus
    (rs : List ModelResponse) (r : ModelResponse)
    (h : rs.filter isSuccess = [r]) :
    consensusStep rs = (none, some r.model_id) := by
  simp [consensusStep, h]

/-- C4 witness: a two-outcome list with one success. -/
theorem single_success_best_applied :
    consensusStep [okRespA, errRespW] = (none, some okRespA.model_id) :=
  single_success_best_without_consensus [okRespA, errRespW] okRespA rfl

/-- Membership in `list_models` unpacks to the filters of the source:
catalog membership, enabled with an initialized provider, language support
(when the language string is non-empty) and a covering complexity tier. -/
theorem mem_list_models {reg : Registry} {language : String}
    {complexity : ComplexityLevel} {m : ModelConfig}
    (hlang : language ≠ "")
    (hm : m ∈ list_models reg language complexity) :
    m ∈ reg.models ∧ m.enabled = true ∧ reg.hasProvider m.id = true
    ∧ m.capabilities.languages.contains language = true
    ∧ complexityOrder complexity ≤ complexityOrder m.capabilities.max_complexity := by
  have hbeq : (language == "") = false := by
    simp [hlang]
  unfold list_models at hm
  rw [hbeq] at hm
  simp only [Bool.false_eq_true, if_false] at hm
  have h1 := List.mem_filter.mp hm
  have h2 := List.mem_filter.mp h1.1
  have h3 := List.mem_filter.mp h2.1
  have h4 := h3.2
  simp only [Bool.and_eq_true] at h4
  exact ⟨h3.1, h4.1, h4.2, h2.2, by simpa using h1.2⟩

/-- `list_models` keeps the catalog's insertion order: it is a sublist of
the registry's model list. -/
theorem list_models_sublist (reg : Registry) (language : String)
    (complexity : ComplexityLevel) :
    List.Sublist (list_models reg language complexity) reg.models := by
  unfold list_models
  cases hl : (language == "") with
  | true =>
    simp only [hl, if_true]
    exact (List.filter_sublist _).trans (List.filter_sublist _)
  | false =>
    simp only [hl, Bool.false_eq_true, if_false]
    exact ((List.filter_sublist _).trans (List.filter_sublist _)).trans
      (List.filter_sublist _)

/-- C5: over a non-empty set of successful outcomes, the consensus reduction
restricts to the syntax-valid subset when it is non-empty (otherwise keeps
all), and returns the content and backend id of the chosen subset's first
highest-confidence element; that element is a member of the outcome set and
has no error. -/
theorem consensus_valid_subset_highest_confidence
    (r : ModelResponse) (rs : List ModelResponse)
    (h : ∀ x ∈ r :: rs, isSuccess x = true) :
    ∃ l1 l2 best,
      (if ((r :: rs).filter (fun x => x.syntax_valid)).isEmpty then r :: rs
        else (r :: rs).filter (fun x => x.syntax_valid)) = l1 ++ best :: l2
      ∧ generate_consensus r rs = (best.generated_code, best.model_id)
      ∧ best ∈ r :: rs
      ∧ isSuccess best = true
      ∧ (∀ y ∈ l1, y.confidence_score < best.confidence_score)
      ∧ (∀ y ∈ l2, y.confidence_score ≤ best.confidence_score) := by
  by_cases hv : ((r :: rs).filter (fun x => x.syntax_valid)).isEmpty
  · obtain ⟨l1, l2, heq, h1, h2⟩ :=
      pyMaxBy_split (fun x : ModelResponse => x.confidence_score) rs r
    have hmem : pyMaxBy (fun x : ModelResponse => x.confidence_score) r rs ∈ r :: rs := by
      rw [heq]
      exact List.mem_append_right _ (List.mem_cons_self _ _)
    refine ⟨l1, l2, pyMaxBy (fun x : ModelResponse => x.confidence_score) r rs,
      ?_, ?_, hmem, h _ hmem, h1, h2⟩
    · rw [if_pos hv]
      exact heq
    · simp [generate_consensus, hv]
  · have hne : (r :: rs).filter (fun x => x.syntax_valid) ≠ [] := by
      intro hnil
      rw [hnil] at hv
      exact hv rfl
    obtain ⟨c, cs, hcc⟩ := List.exists_cons_of_ne_nil hne
    obtain ⟨l1, l2, heq, h1, h2⟩ :=
      pyMaxBy_split (fun x : ModelResponse => x.confidence_score) cs c
    have hmemv : pyMaxBy (fun x : ModelResponse => x.confidence_score) c cs ∈
        (r :: rs).filter (fun x => x.syntax_valid) := by
      rw [hcc, heq]
      exact List.mem_append_right _ (List.mem_cons_self _ _)
    have hmem : pyMaxBy (fun x : ModelResponse => x.confidence_score) c cs ∈ r :: rs :=
      (List.mem_filter.mp hmemv).1
    refine ⟨l1, l2, pyMaxBy (fun x : ModelResponse => x.confidence_score) c cs,
      ?_, ?_, hmem, h _ hmem, h1, h2⟩
    · rw [if_neg hv, hcc]
      exact heq
    · simp [generate_consensus, hv, hcc]

/-- C5 witness: the spec's concrete scenario — A succeeds with valid syntax
and confidence 0.9, B succeeds with invalid syntax and confidence 0.95; the
valid-syntax subset is preferred. -/
theorem consensus_valid_subset_applied :
    ∃ l1 l2 best,
      (if (([okRespA, okRespB]).filter (fun x => x.syntax_valid)).isEmpty
        then [okRespA, okRespB]
        else ([okRespA, okRespB]).filter (fun x => x.syntax_valid)) = l1 ++ best :: l2
      ∧ generate_consensus okRespA [okRespB] = (best.generated_code, best.model_id)
      ∧ best ∈ [okRespA, okRespB]
      ∧ isSuccess best = true
      ∧ (∀ y ∈ l1, y.confidence_score < best.confidence_score)
      ∧ (∀ y ∈ l2, y.confidence_score ≤ best.confidence_score) :=
  consensus_valid_subset_highest_confidence okRespA [okRespB] (by decide)

/-- C6 counterexample: with an empty requested language the selector skips
the language filter entirely (Python truthiness), so it returns a backend
that does not support the requested language. -/
theorem selector_empty_language_cex :
    select_models regW "" ComplexityLevel.simple none 2 "default" = ["m1"]
    ∧ modelW.capabilities.languages.contains "" = false :=
  ⟨rfl, rfl⟩

/-- C6 amended: for a non-empty requested language, the selector returns at
most `k` ids, each belonging to an eligible catalog entry that supports the
language at a covering complexity tier; the scored list is sorted by
non-increasing score, ties keep catalog insertion order (restricting the
sorted list to any one score value leaves the candidate order unchanged,
and the candidate order is a sublist of the catalog order). -/
theorem selector_bounded_eligible_sorted (reg : Registry) (language : String)
    (complexity : ComplexityLevel) (framework : Option String)
    (k : Nat) (strategy : String) (hlang : language ≠ "") :
    (select_models reg language complexity framework k strategy).length ≤ k
    ∧ (∀ id ∈ select_models reg language complexity framework k strategy,
        ∃ m, m ∈ reg.models ∧ m.id = id ∧ m.enabled = true
          ∧ reg.hasProvider m.id = true
          ∧ m.capabilities.languages.contains language = true
          ∧ complexityOrder complexity ≤ complexityOrder m.capabilities.max_complexity)
    ∧ ((sortByScoreDesc (scoredCandidates reg language complexity framework strategy)).take
        k).Pairwise (fun a b => b.2 ≤ a.2)
    ∧ (∀ q : ℚ,
        (sortByScoreDesc (scoredCandidates reg language complexity framework strategy)).filter
            (fun p => decide (p.2 = q)) =
          (scoredCandidates reg language complexity framework strategy).filter
            (fun p => decide (p.2 = q)))
    ∧ List.Sublist
        ((scoredCandidates reg language complexity framework strategy).map Prod.fst)
        (reg.models.map ModelConfig.id) := by
  refine ⟨?_, ?_, ?_, fun q => filter_sortByScoreDesc q _, ?_⟩
  · simp only [select_models]
    split
    · simp
    · rw [List.length_map, List.length_take]
      exact min_le_left _ _
  · intro id hid
    simp only [select_models] at hid
    split at hid
    · simp at hid
    · obtain ⟨p, hp, hpid⟩ := List.mem_map.mp hid
      have hps : p ∈ sortByScoreDesc (scoredCandidates reg language complexity framework strategy) :=
        List.take_subset _ _ hp
      have hpc : p ∈ scoredCandidates reg language complexity framework strategy :=
        mem_sortByScoreDesc.mp hps
      obtain ⟨m, hm, hmp⟩ := List.mem_map.mp hpc
      obtain ⟨hcat, hen, hprov, hlangm, hcx⟩ := mem_list_models hlang hm
      exact ⟨m, hcat, by rw [← hpid, ← hmp], hen, hprov, hlangm, hcx⟩
  · exact (pairwise_sortByScoreDesc _).sublist (List.take_sublist _ _)
  · have h1 : (scoredCandidates reg language complexity framework strategy).map Prod.fst =
        (list_models reg language complexity).map (fun m => m.id) := by
      unfold scoredCandidates
      rw [List.map_map]
      rfl
    rw [h1]
    exact (list_models_sublist reg language complexity).map _

/-- C6 witness: the theorem applied to the fixture registry for python at
the simple tier with `maxCount = 2`, instantiated at the returned id. -/
theorem selector_bounded_applied :
    (select_models regW "python" ComplexityLevel.simple none 2 "default").length ≤ 2
    ∧ ∃ m, m ∈ regW.models ∧ m.id = "m1" ∧ m.enabled = true
        ∧ regW.hasProvider m.id = true
        ∧ m.capabilities.languages.contains "python" = true
        ∧ complexityOrder ComplexityLevel.simple ≤ complexityOrder m.capabilities.max_complexity :=
  ⟨(selector_bounded_eligible_sorted regW "python" ComplexityLevel.simple none 2 "default"
      (by decide)).1,
   (selector_bounded_eligible_sorted regW "python" ComplexityLevel.simple none 2 "default"
      (by decide)).2.1 "m1" (by decide)⟩

/-- C7: with an explicit non-"auto" backend list, the filtering loop reads
`provider.enabled` on the first id that has a live provider; no provider
class defines that attribute, so the loop raises `AttributeError` instead of
dropping ineligible ids, and the whole request ends in a failed error
response with zero outcomes — the surviving ids are never dispatched. -/
theorem explicit_selection_attribute_error :
    validate_selected regW.getProvider ["m1"] =
      .error "AttributeError: provider object has no attribute enabled"
    ∧ (regW.getProvider "m1").isSome = true
    ∧ (generate_code regW requestExplicitW (fun _ _ => Except.ok goodResp) false 0).status
        = "failed"
    ∧ (generate_code regW requestExplicitW (fun _ _ => Except.ok goodResp) false 0).model_responses
        = []
    ∧ (generate_code regW requestExplicitW (fun _ _ => Except.ok goodResp) false 0).metadata
        = .failure "AttributeError: provider object has no attribute enabled" :=
  ⟨rfl, rfl, rfl, rfl, rfl⟩

/-- When the retries end in a response, the unit's outcome keeps that
response's content and error unchanged (evaluation only fills in syntax
validity and quality metrics). -/
theorem execute_with_fallback_ok_fields (mc : Option ModelConfig) (model_id : String)
    (validate : String → Bool) (attempt : Nat → Except String ModelResponse)
    (r : ModelResponse) (hre : retry_call attempt = .ok r) :
    (execute_with_fallback mc model_id validate attempt).generated_code = r.generated_code
    ∧ (execute_with_fallback mc model_id validate attempt).error = r.error := by
  unfold execute_with_fallback
  rw [hre]
  split
  · rename_i m heq
    injection heq with h
    subst h
    split <;> simp
  · rename_i e heq
    exact Except.noConfusion heq

/-- When the retries are exhausted, the unit's outcome carries the final
exception as its error. -/
theorem execute_with_fallback_error_field (mc : Option ModelConfig) (model_id : String)
    (validate : String → Bool) (attempt : Nat → Except String ModelResponse)
    (e : String) (hre : retry_call attempt = .error e) :
    (execute_with_fallback mc model_id validate attempt).error = some e := by
  unfold execute_with_fallback
  rw [hre]

/-- C8 counterexample: a backend success carrying empty content and a null
error passes through the evaluation stage unchanged, so the returned
outcome has both conditions of the claimed dichotomy false. -/
theorem empty_content_null_error_cex :
    (execute_with_fallback none "Z" (fun _ => true) (fun _ => Except.ok emptyOkResp)).generated_code
      = ""
    ∧ (execute_with_fallback none "Z" (fun _ => true) (fun _ => Except.ok emptyOkResp)).error
      = none :=
  ⟨rfl, rfl⟩

/-- C8 amended: provided every backend success with a null error carries
non-empty content, each outcome after the evaluation stage satisfies
exactly one of {non-empty content with null error} or {error set}; the
stage itself does not enforce the proviso (see the counterexample). -/
theorem outcome_exclusive_error_or_content (mc : Option ModelConfig)
    (model_id : String) (validate : String → Bool)
    (attempt : Nat → Except String ModelResponse)
    (h : ∀ k r, attempt k = .ok r → r.error = none → r.generated_code ≠ "") :
    (((execute_with_fallback mc model_id validate attempt).generated_code ≠ ""
        ∧ (execute_with_fallback mc model_id validate attempt).error = none)
      ∨ (∃ s, (execute_with_fallback mc model_id validate attempt).error = some s))
    ∧ ¬(((execute_with_fallback mc model_id validate attempt).generated_code ≠ ""
        ∧ (execute_with_fallback mc model_id validate attempt).error = none)
      ∧ (∃ s, (execute_with_fallback mc model_id validate attempt).error = some s)) := by
  constructor
  · cases hre : retry_call attempt with
    | error e => exact Or.inr ⟨e, execute_with_fallback_error_field mc model_id validate attempt e hre⟩
    | ok r =>
      obtain ⟨hc, he⟩ := execute_with_fallback_ok_fields mc model_id validate attempt r hre
      cases herr : r.error with
      | none =>
        have hk : ∃ k, attempt k = .ok r := by
          rcases retry_call_cases attempt with h0 | h1 | h2
          · exact ⟨0, by rw [← h0, hre]⟩
          · exact ⟨1, by rw [← h1, hre]⟩
          · exact ⟨2, by rw [← h2, hre]⟩
        obtain ⟨k, hk⟩ := hk
        exact Or.inl ⟨by rw [hc]; exact h k r hk herr, by rw [he, herr]⟩
      | some s => exact Or.inr ⟨s, by rw [he, herr]⟩
  · rintro ⟨⟨_, hnone⟩, ⟨s, hsome⟩⟩
    rw [hnone] at hsome
    exact Option.noConfusion hsome

/-- C8 witness: the theorem applied to a well-formed backend whose success
carries non-empty content. -/
theorem outcome_exclusive_applied :
    (((execute_with_fallback none "G" (fun _ => true) (fun _ => Except.ok goodResp)).generated_code ≠ ""
        ∧ (execute_with_fallback none "G" (fun _ => true) (fun _ => Except.ok goodResp)).error = none)
      ∨ (∃ s, (execute_with_fallback none "G" (fun _ => true) (fun _ => Except.ok goodResp)).error = some s))
    ∧ ¬(((execute_with_fallback none "G" (fun _ => true) (fun _ => Except.ok goodResp)).generated_code ≠ ""
        ∧ (execute_with_fallback none "G" (fun _ => true) (fun _ => Except.ok goodResp)).error = none)
      ∧ (∃ s, (execute_with_fallback none "G" (fun _ => true) (fun _ => Except.ok goodResp)).error = some s)) :=
  outcome_exclusive_error_or_content none "G" (fun _ => true) (fun _ => Except.ok goodResp)
    (by
      intro k r hk he
      injection hk with hr
      rw [← hr]
      decide)

/-- C9: a unit whose backend call fails on the first two attempts and
returns a response on the third keeps that response's content and error;
the retry loop reads at most the first three attempts; when all three fail
only the final attempt's error is surfaced; and the configured backoff
delays grow exponentially (2s then 4s, capped at 10s). -/
theorem retry_budget_and_third_attempt (mc : Option ModelConfig)
    (model_id : String) (validate : String → Bool)
    (attempt : Nat → Except String ModelResponse) (e0 e1 : String)
    (r : ModelResponse)
    (h0 : attempt 0 = .error e0) (h1 : attempt 1 = .error e1)
    (h2 : attempt 2 = .ok r) :
    (execute_with_fallback mc model_id validate attempt).generated_code = r.generated_code
    ∧ (execute_with_fallback mc model_id validate attempt).error = r.error
    ∧ (∀ a b : Nat → Except String ModelResponse,
        (∀ k, k < 3 → a k = b k) → retry_call a = retry_call b)
    ∧ (∀ (a : Nat → Except String ModelResponse) (f0 f1 f2 : String),
        a 0 = .error f0 → a 1 = .error f1 → a 2 = .error f2 →
        (execute_with_fallback mc model_id validate a).error = some f2)
    ∧ backoff_delay 1 = 2 ∧ backoff_delay 2 = 4 ∧ backoff_delay 1 < backoff_delay 2 := by
  have hre : retry_call attempt = .ok r := by
    simp [retry_call, retry_stop, h0, h1, h2]
  obtain ⟨hc, he⟩ := execute_with_fallback_ok_fields mc model_id validate attempt r hre
  have hb1 : backoff_delay 1 = 2 := by
    unfold backoff_delay wait_exponential
    rw [show (1 : ℚ) * 2 ^ 1 = 2 by norm_num]
    rw [min_eq_left (by norm_num : (2 : ℚ) ≤ 10),
      max_eq_right (by norm_num : (0 : ℚ) ≤ 2), max_self]
  have hb2 : backoff_delay 2 = 4 := by
    unfold backoff_delay wait_exponential
    rw [show (1 : ℚ) * 2 ^ 2 = 4 by norm_num]
    rw [min_eq_left (by norm_num : (4 : ℚ) ≤ 10),
      max_eq_right (by norm_num : (0 : ℚ) ≤ 2),
      max_eq_right (by norm_num : (2 : ℚ) ≤ 4)]
  refine ⟨hc, he, ?_, ?_, hb1, hb2, by rw [hb1, hb2]; norm_num⟩
  · intro a b hab
    have g0 := hab 0 (by omega)
    have g1 := hab 1 (by omega)
    have g2 := hab 2 (by omega)
    cases hb0 : b 0 with
    | ok r0 => simp [retry_call, retry_stop, g0.trans hb0, hb0]
    | error f0 =>
      cases hb1 : b 1 with
      | ok r1 => simp [retry_call, retry_stop, g0.trans hb0, hb0, g1.trans hb1, hb1]
      | error f1 =>
        simp [retry_call, retry_stop, g0.trans hb0, hb0, g1.trans hb1, hb1, g2]
  · intro a f0 f1 f2 g0 g1 g2
    have hra : retry_call a = .error f2 := by
      simp [retry_call, retry_stop, g0, g1, g2]
    exact execute_with_fallback_error_field mc model_id validate a f2 hra

/-- C9 witness: the fixture attempt sequence failing twice and succeeding on
the third try. -/
theorem retry_budget_applied :
    (execute_with_fallback none "G" (fun _ => true) attemptW).generated_code
      = goodResp.generated_code
    ∧ (execute_with_fallback none "G" (fun _ => true) attemptW).error = goodResp.error :=
  ⟨(retry_budget_and_third_attempt none "G" (fun _ => true) attemptW
      "transient 0" "transient 1" goodResp rfl rfl rfl).1,
   (retry_budget_and_third_attempt none "G" (fun _ => true) attemptW
      "transient 0" "transient 1" goodResp rfl rfl rfl).2.1⟩

/-- C10: the quality metrics are computed deterministically from the text by
the claimed closed formulas: non-blank non-comment line count, one plus the
case-insensitive substring counts of the eight control-flow keywords,
readability from the mean line length, documentation from the comment-line
ratio, and a constant security score. -/
theorem quality_metrics_deterministic_formulas (code : String) :
    (calculate_quality_metrics code).lines_of_code =
      (code.splitOn "\n").countP (fun l => !(pyStrip l == "") && !((pyStrip l).startsWith "#"))
    ∧ (calculate_quality_metrics code).cyclomatic_complexity =
      1 + (pyCount (pyLower code) "if" + pyCount (pyLower code) "else"
        + pyCount (pyLower code) "elif" + pyCount (pyLower code) "for"
        + pyCount (pyLower code) "while" + pyCount (pyLower code) "match"
        + pyCount (pyLower code) "case" + pyCount (pyLower code) "switch")
    ∧ (calculate_quality_metrics code).readability_score =
      max 0 (100 -
        |(((code.splitOn "\n").map (fun l => (l.length : ℚ))).sum /
            ((max (code.splitOn "\n").length 1 : Nat) : ℚ)) - 80| / 2)
    ∧ (calculate_quality_metrics code).documentation_score =
      min 100
        ((((code.splitOn "\n").countP
              (fun l => (pyStrip l).startsWith "#" || pySubstr l "\"\"\"") : ℚ) /
          ((max ((code.splitOn "\n").countP
              (fun l => !(pyStrip l == "") && !((pyStrip l).startsWith "#"))) 1 : Nat) : ℚ)) * 200)
    ∧ (calculate_quality_metrics code).security_score = 75 := by
  refine ⟨?_, ?_, rfl, ?_, rfl⟩
  · simp [calculate_quality_metrics, List.countP_eq_length_filter]
  · simp only [calculate_quality_metrics, List.map_cons, List.map_nil, List.sum_cons,
      List.sum_nil]
    ring
  · simp [calculate_quality_metrics, List.countP_eq_length_filter]

end LioAI
